import Mathlib

/-!
Shallow embedding of the invoice core of the Monthly-Medicine pharmacy
invoicing application (`src/App.tsx` together with the `types.ts` interfaces
it imports).  JavaScript numbers are modelled as rationals (`ℚ`), JS arrays
as Lean lists, the `newlyAddedDefaults : Set<string>` as an
insertion-ordered duplicate-free list of strings (JS `Set` iteration order
is insertion order), and the React component state as an explicit
`AppState` record.  Each event handler of `App.tsx` becomes a pure state
transformer; the invoice-derivation `useEffect` becomes the explicit
function `deriveEffect` applied whenever its dependencies change.
-/

namespace MonthlyMedicine

/-- `Patient` from `types.ts`. -/
structure Patient where
  id : String
  name : String
deriving DecidableEq

/-- `Product` from `types.ts`; `price` is a JS number, modelled as `ℚ`. -/
structure Product where
  id : String
  name : String
  price : ℚ
deriving DecidableEq

/-- `PatientMedication` exactly as in the `types.ts` imported by `App.tsx`
(`src/unnamed/part_001`, lines 21-24): a bare patient/product pair.  Note
that this record has **no** `quantity` or `discount` field. -/
structure PatientMedication where
  patientId : String
  productId : String
deriving DecidableEq

/-- `InvoiceItem` from `types.ts`.  The optional `isNew?` flag defaults to
absent, modelled as `false`. -/
structure InvoiceItem where
  productId : String
  name : String
  price : ℚ
  quantity : ℚ
  discount : ℚ
  isNew : Bool := false
deriving DecidableEq

/-- The React state of the `App` component (`useState` hooks of
`src/App.tsx`), minus the transient `statusMessage` banner, which is
modelled by the explicit status value returned by `handleSaveInvoice`. -/
structure AppState where
  patients : List Patient
  products : List Product
  patientMedications : List PatientMedication
  selectedPatientId : String
  invoiceItems : List InvoiceItem
  newlyAddedDefaults : List String
deriving DecidableEq

/-- The invoice line built from a product by the derivation effect
(`App.tsx` lines 145 and 148): a snapshot of the product's name and price
with `quantity = 1`, `discount = 0` and no `isNew` flag. -/
def productLine (p : Product) : InvoiceItem :=
  { productId := p.id, name := p.name, price := p.price,
    quantity := 1, discount := 0, isNew := false }

/-- The body of the invoice-derivation `useEffect` (`App.tsx` lines
142-149).  `"all"` derives one line per catalog product; a non-empty
concrete patient id derives one line per catalog product whose id occurs
in that patient's `PatientMedication` rows; the empty (unset) selection
derives the empty invoice. -/
def deriveItems (selectedPatientId : String) (products : List Product)
    (patientMedications : List PatientMedication) : List InvoiceItem :=
  if selectedPatientId = "all" then
    products.map productLine
  else if selectedPatientId ≠ "" then
    let defaultProductIds :=
      (patientMedications.filter
        (fun pm => pm.patientId == selectedPatientId)).map
        (fun pm => pm.productId)
    (products.filter (fun p => defaultProductIds.contains p.id)).map
      productLine
  else
    []

/-- The full derivation effect (`App.tsx` lines 142-152): replace the
working invoice by the derived lines and clear the pending
save-as-default marks. -/
def deriveEffect (st : AppState) : AppState :=
  { st with
    invoiceItems :=
      deriveItems st.selectedPatientId st.products st.patientMedications,
    newlyAddedDefaults := [] }

/-- `handleUpdateItem` (`App.tsx` lines 154-156). -/
def handleUpdateItem (updatedItem : InvoiceItem) (st : AppState) : AppState :=
  { st with
    invoiceItems := st.invoiceItems.map
      (fun item =>
        if item.productId == updatedItem.productId then updatedItem
        else item) }

/-- `handleRemoveItem` (`App.tsx` lines 158-165): drop the line with the
given product id and delete that id from the pending save-as-default set. -/
def handleRemoveItem (productId : String) (st : AppState) : AppState :=
  { st with
    invoiceItems :=
      st.invoiceItems.filter (fun item => !(item.productId == productId)),
    newlyAddedDefaults :=
      st.newlyAddedDefaults.filter (fun d => !(d == productId)) }

/-- The invoice line appended by `handleAddItem` (`App.tsx` line 168):
quantity 1, discount 0, `isNew: true`. -/
def newItemLine (p : Product) : InvoiceItem :=
  { productId := p.id, name := p.name, price := p.price,
    quantity := 1, discount := 0, isNew := true }

/-- `handleAddItem` (`App.tsx` lines 167-169): unconditionally append a
fresh line for the product. -/
def handleAddItem (product : Product) (st : AppState) : AppState :=
  { st with invoiceItems := st.invoiceItems ++ [newItemLine product] }

/-- `handleToggleDefault` (`App.tsx` lines 171-181). -/
def handleToggleDefault (productId : String) (st : AppState) : AppState :=
  { st with
    newlyAddedDefaults :=
      if st.newlyAddedDefaults.contains productId then
        st.newlyAddedDefaults.filter (fun d => !(d == productId))
      else
        st.newlyAddedDefaults ++ [productId] }

/-- Per-line net amount as computed in `InvoiceRow` (`App.tsx` line 47)
and in the PDF exporter: `price * quantity * (1 - discount / 100)`. -/
def lineNet (item : InvoiceItem) : ℚ :=
  item.price * item.quantity * (1 - item.discount / 100)

/-- `totals.subtotal` (`App.tsx` line 184): `reduce` of
`price * quantity` starting from 0. -/
def subtotal (items : List InvoiceItem) : ℚ :=
  items.foldl (fun acc item => acc + item.price * item.quantity) 0

/-- `totals.grandTotal` (`App.tsx` line 185): `reduce` of
`price * quantity * (1 - discount / 100)` starting from 0. -/
def grandTotal (items : List InvoiceItem) : ℚ :=
  items.foldl
    (fun acc item => acc + item.price * item.quantity * (1 - item.discount / 100)) 0

/-- `totals.discount` (`App.tsx` line 186): defined as
`subtotal - grandTotal`. -/
def discountTotal (items : List InvoiceItem) : ℚ :=
  subtotal items - grandTotal items

/-- Outcome reported by `handleSaveInvoice` through `showStatusMessage`. -/
inductive SaveStatus where
  | success
  | error
deriving DecidableEq

/-- `handleSaveInvoice` (`App.tsx` lines 195-209).  With no concrete
patient selected (`!selectedPatientId || selectedPatientId === 'all'`) it
reports an error and changes nothing.  Otherwise it appends one new
`PatientMedication` pair per id in `newlyAddedDefaults` (the
`size > 0` guard is immaterial to the state: appending the empty list is
the identity), resets the selection to `"all"`, and the derivation effect
then fires because `selectedPatientId` (and possibly
`patientMedications`) changed. -/
def handleSaveInvoice (st : AppState) : AppState × SaveStatus :=
  if st.selectedPatientId = "" ∨ st.selectedPatientId = "all" then
    (st, SaveStatus.error)
  else
    let newMeds := st.newlyAddedDefaults.map
      (fun productId =>
        ({ patientId := st.selectedPatientId, productId := productId } :
          PatientMedication))
    let st1 :=
      { st with
        patientMedications := st.patientMedications ++ newMeds,
        selectedPatientId := "all" }
    (deriveEffect st1, SaveStatus.success)

/-- `handleUpdateProduct` (`App.tsx` lines 254-261): update the product in
the catalog **and** re-sync the matching line of the current invoice
("Also update it in the current invoice if present"). -/
def handleUpdateProduct (id nm : String) (pr : ℚ) (st : AppState) : AppState :=
  { st with
    products := st.products.map
      (fun p => if p.id == id then { p with name := nm, price := pr } else p),
    invoiceItems := st.invoiceItems.map
      (fun item =>
        if item.productId == id then { item with name := nm, price := pr }
        else item) }

/-- `handleDeleteProduct` (`App.tsx` lines 263-270), confirmed branch:
cascade-delete the product from the catalog, from every patient's
association list, and from the current invoice. -/
def handleDeleteProduct (id : String) (st : AppState) : AppState :=
  { st with
    products := st.products.filter (fun p => !(p.id == id)),
    patientMedications :=
      st.patientMedications.filter (fun pm => !(pm.productId == id)),
    invoiceItems :=
      st.invoiceItems.filter (fun item => !(item.productId == id)) }

/-- `existingItemIds` (`App.tsx` line 273): the product ids present in the
working invoice. -/
def existingItemIds (items : List InvoiceItem) : List String :=
  items.map (fun item => item.productId)

/-- `availableProducts` of the `ProductAdder` component (`App.tsx` line
88): only products whose id is not already in the invoice are offered for
selection. -/
def availableProducts (products : List Product) (existingIds : List String) :
    List Product :=
  products.filter (fun p => !(existingIds.contains p.id))

/-! ## General lemmas about the embedded operations -/

/-- A `reduce`-style left fold of `acc + f item` equals the initial
accumulator plus the sum of the mapped list. -/
theorem foldl_add_eq_sum (f : InvoiceItem → ℚ) :
    ∀ (l : List InvoiceItem) (a : ℚ),
      l.foldl (fun acc item => acc + f item) a = a + (l.map f).sum
  | [], a => by simp
  | item :: l, a => by
      simp [List.foldl_cons, foldl_add_eq_sum f l (a + f item), add_assoc]

/-! ## Example data used for counterexamples and witnesses -/

/-- A sample product with id `"X"` and price 50, as in the spec's worked
example for patient derivation. -/
def prodX : Product := { id := "X", name := "x", price := 50 }

/-- A sample product with id `"A"`. -/
def prodA : Product := { id := "A", name := "old", price := 10 }

/-- A sample product with id `"B"`. -/
def prodB : Product := { id := "B", name := "b", price := 20 }

/-! ## C5 -/

/-- C5: with the `"all"` sentinel selected, derivation produces exactly one
line per catalog product, each with quantity 1 and discount 0; with the
selection empty it produces the empty invoice; and on the two-product
catalog with prices 10 and 20 the derived lines give `subtotal = 30`,
`grandTotal = 30` and `discountTotal = 0`. -/
theorem C5_all_derivation (products : List Product)
    (patientMedications : List PatientMedication) :
    deriveItems "all" products patientMedications = products.map productLine
    ∧ (products.map productLine).all
        (fun item => item.quantity == 1 && item.discount == 0) = true
    ∧ deriveItems "" products patientMedications = []
    ∧ subtotal (deriveItems "all" [prodA, prodB] []) = 30
    ∧ grandTotal (deriveItems "all" [prodA, prodB] []) = 30
    ∧ discountTotal (deriveItems "all" [prodA, prodB] []) = 0 := by
  refine ⟨by simp [deriveItems], ?_, by simp [deriveItems],
    by norm_num [deriveItems, productLine, subtotal, prodA, prodB],
    by norm_num [deriveItems, productLine, grandTotal, prodA, prodB],
    by norm_num [deriveItems, productLine, discountTotal, subtotal, grandTotal, prodA, prodB]⟩
  simp only [List.all_eq_true]
  intro item hitem
  rcases List.mem_map.mp hitem with ⟨p, _, rfl⟩
  simp [productLine]

/-! ## C6 -/

/-- C6: the totals are computed as `subtotal = Σ price * quantity`,
`grandTotal = Σ price * quantity * (1 - discount / 100)` (the sum of the
per-line nets), `discountTotal = subtotal - grandTotal`, and the identity
`grandTotal = subtotal - discountTotal` holds exactly over the embedded
exact rational arithmetic — no rounding enters the computed values
(`toFixed` is applied only when displaying). -/
theorem C6_totals_identity (items : List InvoiceItem) :
    subtotal items = (items.map (fun item => item.price * item.quantity)).sum
    ∧ grandTotal items = (items.map lineNet).sum
    ∧ discountTotal items = subtotal items - grandTotal items
    ∧ grandTotal items = subtotal items - discountTotal items := by
  refine ⟨?_, ?_, rfl, ?_⟩
  · simpa using foldl_add_eq_sum (fun item => item.price * item.quantity) items 0
  · simpa [lineNet] using
      foldl_add_eq_sum (fun item => item.price * item.quantity * (1 - item.discount / 100)) items 0
  · simp [discountTotal]

/-! ## C7 -/

/-- C7: invoking save-back with the `"all"` sentinel or an unset (empty)
selection reports an error and is otherwise a no-op: the returned state is
exactly the input state, so patient-medication associations and all other
state are unchanged. -/
theorem C7_save_without_patient_noop (st : AppState)
    (h : st.selectedPatientId = "all" ∨ st.selectedPatientId = "") :
    handleSaveInvoice st = (st, SaveStatus.error) := by
  rcases h with h | h <;> simp [handleSaveInvoice, h]

/-- A state with the `"all"` sentinel selected. -/
def exAllSt : AppState :=
  { patients := [{ id := "p1", name := "P" }], products := [prodA, prodB],
    patientMedications := [{ patientId := "p1", productId := "A" }],
    selectedPatientId := "all",
    invoiceItems := [productLine prodA, productLine prodB],
    newlyAddedDefaults := [] }

/-- Witness for C7 at a concrete state with `"all"` selected. -/
theorem C7_witness : handleSaveInvoice exAllSt = (exAllSt, SaveStatus.error) :=
  C7_save_without_patient_noop exAllSt (Or.inl rfl)

/-! ## C1 -/

/-- A concrete state for the save-back counterexample: patient `"p1"` has a
stored association to product `"A"`, while the current invoice holds a
single line for product `"B"`, marked as pending save-as-default. -/
def exC1St : AppState :=
  { patients := [{ id := "p1", name := "P" }], products := [prodA, prodB],
    patientMedications := [{ patientId := "p1", productId := "A" }],
    selectedPatientId := "p1",
    invoiceItems := [newItemLine prodB],
    newlyAddedDefaults := ["B"] }

/-- C1 counterexample: product `"A"` is absent from the current invoice
lines, yet after save-back the association `(p1, A)` still remains — the
save is not a replace of the patient's associations by the invoice lines. -/
theorem C1_counterexample :
    ({ patientId := "p1", productId := "A" } : PatientMedication) ∈
        (handleSaveInvoice exC1St).1.patientMedications
    ∧ "A" ∉ existingItemIds exC1St.invoiceItems := by
  constructor
  · simp [handleSaveInvoice, exC1St, deriveEffect]
  · simp [existingItemIds, exC1St, newItemLine, prodB]

/-- C1 amended: for a concrete (non-`"all"`, non-empty) selected patient,
save-back succeeds and **appends** one bare `(patientId, productId)`
association per pending save-as-default mark to the existing association
list; it removes nothing (existing associations of this patient and of all
other patients are kept verbatim), and the appended pairs carry no
quantity or discount — a second save-back appends again (merge, never
replace). -/
theorem C1_saveback_appends (st : AppState)
    (h1 : st.selectedPatientId ≠ "") (h2 : st.selectedPatientId ≠ "all") :
    (handleSaveInvoice st).2 = SaveStatus.success
    ∧ (handleSaveInvoice st).1.patientMedications =
        st.patientMedications ++ st.newlyAddedDefaults.map
          (fun productId =>
            ({ patientId := st.selectedPatientId, productId := productId } :
              PatientMedication)) := by
  simp [handleSaveInvoice, h1, h2, deriveEffect]

/-- Witness for C1's amended theorem at the concrete state `exC1St`. -/
theorem C1_witness :
    (handleSaveInvoice exC1St).2 = SaveStatus.success
    ∧ (handleSaveInvoice exC1St).1.patientMedications =
        exC1St.patientMedications ++ exC1St.newlyAddedDefaults.map
          (fun productId =>
            ({ patientId := exC1St.selectedPatientId, productId := productId } :
              PatientMedication)) :=
  C1_saveback_appends exC1St (by decide) (by decide)

/-! ## C9 -/

/-- C9: after a successful save-back for a concrete patient, the selection
is reset to `"all"`, the derivation effect then replaces the working
invoice with one `quantity = 1, discount = 0` line per catalog product,
and the pending save-as-default marks are cleared — the invoice shown
after saving is the full-catalog template, not the invoice that was
saved. -/
theorem C9_save_resets_to_all (st : AppState)
    (h1 : st.selectedPatientId ≠ "") (h2 : st.selectedPatientId ≠ "all") :
    (handleSaveInvoice st).2 = SaveStatus.success
    ∧ (handleSaveInvoice st).1.selectedPatientId = "all"
    ∧ (handleSaveInvoice st).1.invoiceItems = st.products.map productLine
    ∧ (handleSaveInvoice st).1.newlyAddedDefaults = [] := by
  simp [handleSaveInvoice, h1, h2, deriveEffect, deriveItems]

/-- Witness for C9 at the concrete state `exC1St`. -/
theorem C9_witness :
    (handleSaveInvoice exC1St).2 = SaveStatus.success
    ∧ (handleSaveInvoice exC1St).1.selectedPatientId = "all"
    ∧ (handleSaveInvoice exC1St).1.invoiceItems = exC1St.products.map productLine
    ∧ (handleSaveInvoice exC1St).1.newlyAddedDefaults = [] :=
  C9_save_resets_to_all exC1St (by decide) (by decide)

/-! ## C8 -/

/-- Every line produced by invoice derivation is the `productLine` of some
product of the supplied catalog, whatever the selection is. -/
theorem mem_deriveItems_products {sel : String} {prods : List Product}
    {meds : List PatientMedication} {item : InvoiceItem}
    (h : item ∈ deriveItems sel prods meds) :
    ∃ p ∈ prods, item = productLine p := by
  unfold deriveItems at h
  split_ifs at h with h1 h2
  · rcases List.mem_map.mp h with ⟨p, hp, rfl⟩
    exact ⟨p, hp, rfl⟩
  · rcases List.mem_map.mp h with ⟨p, hp, rfl⟩
    exact ⟨p, (List.mem_filter.mp hp).1, rfl⟩
  · simp at h

/-- C8: deleting a product removes it from the catalog, from every
patient's association list and from the current invoice in one cascade,
and any derivation performed on the post-deletion catalog and
associations — for every possible selection — produces no line for the
deleted product id. -/
theorem C8_delete_product_cascades (st : AppState) (id : String) :
    ((handleDeleteProduct id st).products.all (fun p => !(p.id == id))) = true
    ∧ ((handleDeleteProduct id st).patientMedications.all
        (fun pm => !(pm.productId == id))) = true
    ∧ ((handleDeleteProduct id st).invoiceItems.all
        (fun item => !(item.productId == id))) = true
    ∧ ∀ sel : String,
        ((deriveItems sel (handleDeleteProduct id st).products
            (handleDeleteProduct id st).patientMedications).all
          (fun item => !(item.productId == id))) = true := by
  refine ⟨?_, ?_, ?_, ?_⟩
  · simp only [handleDeleteProduct, List.all_eq_true]
    intro p hp
    exact (List.mem_filter.mp hp).2
  · simp only [handleDeleteProduct, List.all_eq_true]
    intro pm hpm
    exact (List.mem_filter.mp hpm).2
  · simp only [handleDeleteProduct, List.all_eq_true]
    intro item hitem
    exact (List.mem_filter.mp hitem).2
  · intro sel
    simp only [List.all_eq_true]
    intro item hitem
    obtain ⟨p, hp, rfl⟩ := mem_deriveItems_products hitem
    have hp' : p ∈ st.products.filter (fun p => !(p.id == id)) := by
      simpa [handleDeleteProduct] using hp
    simpa [productLine] using (List.mem_filter.mp hp').2

/-! ## C10 -/

/-- C10: `handleRemoveItem` removes the given product id both from the
working invoice lines and from the pending save-as-default set, and as a
consequence a subsequent save-back can only persist associations that
already existed before the removal — the removed line is never persisted
as a new default association. -/
theorem C10_remove_item_unmarks (st : AppState) (pid : String) :
    (∀ item ∈ (handleRemoveItem pid st).invoiceItems, item.productId ≠ pid)
    ∧ pid ∉ (handleRemoveItem pid st).newlyAddedDefaults
    ∧ (∀ pm ∈ (handleSaveInvoice (handleRemoveItem pid st)).1.patientMedications,
        pm.productId = pid → pm ∈ st.patientMedications) := by
  refine ⟨?_, ?_, ?_⟩
  · intro item h
    have h' : item ∈ st.invoiceItems.filter (fun item => !(item.productId == pid)) := by
      simpa [handleRemoveItem] using h
    simpa using (List.mem_filter.mp h').2
  · intro h
    have h' : pid ∈ st.newlyAddedDefaults.filter (fun d => !(d == pid)) := by
      simp only [handleRemoveItem] at h
      exact h
    simpa using (List.mem_filter.mp h').2
  · intro pm hpm hpid
    simp only [handleSaveInvoice, handleRemoveItem, deriveEffect] at hpm
    split_ifs at hpm with hc
    · simpa using hpm
    · simp only [List.mem_append] at hpm
      rcases hpm with hpm | hpm
      · simpa using hpm
      · rcases List.mem_map.mp hpm with ⟨d, hd, rfl⟩
        have hdne : ¬(d = pid) := by simpa using (List.mem_filter.mp hd).2
        exact absurd hpid hdne

/-- A concrete state for the C10 witness: patient `"p1"` already has a
stored association to product `"B"`, which is also a pending
save-as-default mark in the session. -/
def exC10St : AppState :=
  { patients := [{ id := "p1", name := "P" }], products := [prodB],
    patientMedications := [{ patientId := "p1", productId := "B" }],
    selectedPatientId := "p1",
    invoiceItems := [newItemLine prodB],
    newlyAddedDefaults := ["B"] }

/-- Witness for C10: after removing product `"B"` and saving, the
association `(p1, B)` found in the result was already present before the
removal. -/
theorem C10_witness :
    ({ patientId := "p1", productId := "B" } : PatientMedication) ∈
      exC10St.patientMedications :=
  (C10_remove_item_unmarks exC10St "B").2.2
    { patientId := "p1", productId := "B" }
    (by simp [handleSaveInvoice, handleRemoveItem, deriveEffect, exC10St])
    rfl

/-! ## C2 -/

/-- C2 counterexample: patient `"p1"` has a stored association to product
`"X"` of price 50; the derived line has `quantity = 1` and `discount = 0`
(the association can store neither), so its net is `50`, not the
`135.00 = 50 * 3 * 0.9` the claim's saved-quantity/discount example
requires. -/
theorem C2_counterexample :
    deriveItems "p1" [prodX]
        [{ patientId := "p1", productId := "X" }] = [productLine prodX]
    ∧ (productLine prodX).quantity = 1
    ∧ (productLine prodX).discount = 0
    ∧ lineNet (productLine prodX) = 50
    ∧ (50 : ℚ) ≠ 135 := by
  refine ⟨?_, rfl, rfl, ?_, by norm_num⟩
  · simp [deriveItems, prodX]
  · norm_num [lineNet, productLine, prodX]

/-- C2 amended: for a concrete (non-`"all"`, non-empty) selected patient,
every derived line is the snapshot of a catalog product referenced by one
of that patient's associations and always carries `quantity = 1` and
`discount = 0` (the associations store no quantity or discount), and
conversely every association of the patient whose referenced product still
exists contributes a line — an association whose product is gone (dangling
reference) is silently dropped, never an error. -/
theorem C2_patient_derivation (pid : String) (prods : List Product)
    (meds : List PatientMedication) (h1 : pid ≠ "all") (h2 : pid ≠ "") :
    (∀ item ∈ deriveItems pid prods meds,
        item.quantity = 1 ∧ item.discount = 0 ∧
        ∃ p ∈ prods, item = productLine p ∧
          ∃ pm ∈ meds, pm.patientId = pid ∧ pm.productId = p.id)
    ∧ (∀ pm ∈ meds, pm.patientId = pid → ∀ p ∈ prods, p.id = pm.productId →
        ∃ item ∈ deriveItems pid prods meds, item.productId = pm.productId) := by
  constructor
  · intro item h
    unfold deriveItems at h
    rw [if_neg h1, if_pos h2] at h
    rcases List.mem_map.mp h with ⟨p, hp, rfl⟩
    obtain ⟨hpmem, hcont⟩ := List.mem_filter.mp hp
    have hid : p.id ∈ (meds.filter (fun pm => pm.patientId == pid)).map
        (fun pm => pm.productId) := by
      simpa [List.contains] using hcont
    rcases List.mem_map.mp hid with ⟨pm, hpmm, hpmid⟩
    obtain ⟨hpmmem, hpmpid⟩ := List.mem_filter.mp hpmm
    exact ⟨rfl, rfl, p, hpmem, rfl, pm, hpmmem, by simpa using hpmpid, hpmid⟩
  · intro pm hpm hpid p hp hpeq
    unfold deriveItems
    rw [if_neg h1, if_pos h2]
    refine ⟨productLine p, List.mem_map.mpr ⟨p, ?_, rfl⟩, hpeq⟩
    refine List.mem_filter.mpr ⟨hp, ?_⟩
    have hmm : pm ∈ meds.filter (fun pm => pm.patientId == pid) :=
      List.mem_filter.mpr ⟨hpm, by simpa using hpid⟩
    have : p.id ∈ (meds.filter (fun pm => pm.patientId == pid)).map
        (fun pm => pm.productId) :=
      List.mem_map.mpr ⟨pm, hmm, hpeq.symm⟩
    simpa [List.contains] using this

/-- Witness for C2's amended theorem: the stored association `(p1, X)`
with product `X` present in the catalog yields a derived line for `X`. -/
theorem C2_witness :
    ∃ item ∈ deriveItems "p1" [prodX]
        [{ patientId := "p1", productId := "X" }], item.productId = "X" :=
  (C2_patient_derivation "p1" [prodX]
      [{ patientId := "p1", productId := "X" }] (by decide) (by decide)).2
    { patientId := "p1", productId := "X" } (by simp) rfl prodX (by simp) rfl

/-! ## C3 -/

/-- A concrete session state with an empty invoice for the C3
counterexample. -/
def exC3St : AppState :=
  { patients := [{ id := "p1", name := "P" }], products := [prodX],
    patientMedications := [], selectedPatientId := "p1",
    invoiceItems := [], newlyAddedDefaults := [] }

/-- C3 counterexample: calling `handleAddItem` twice with the same product
yields two lines carrying that product's id — the handler itself performs
no duplicate check and is not a no-op on a present id. -/
theorem C3_counterexample :
    ((handleAddItem prodX (handleAddItem prodX exC3St)).invoiceItems.filter
        (fun item => item.productId == "X")).length = 2 := by
  simp [handleAddItem, exC3St, newItemLine, prodX]

/-- C3 amended: `handleAddItem` unconditionally appends a fresh
`quantity = 1, discount = 0` line for the product (so two calls with the
same product yield two lines); the no-duplicate invariant is enforced
upstream by the `ProductAdder`, whose selectable list contains only
products whose id is not already among the invoice's product ids. -/
theorem C3_addItem_appends (p : Product) (st : AppState) :
    (handleAddItem p st).invoiceItems = st.invoiceItems ++ [newItemLine p]
    ∧ ∀ (prods : List Product) (items : List InvoiceItem),
        (availableProducts prods (existingItemIds items)).all
          (fun q => !((existingItemIds items).contains q.id)) = true := by
  refine ⟨rfl, ?_⟩
  intro prods items
  simp only [List.all_eq_true, availableProducts]
  intro q hq
  exact (List.mem_filter.mp hq).2

/-! ## C4 -/

/-- A concrete state holding an invoice line snapshotted from product
`"A"` (name `"old"`, price 10) for the C4 counterexample. -/
def exC4St : AppState :=
  { patients := [], products := [prodA], patientMedications := [],
    selectedPatientId := "all", invoiceItems := [productLine prodA],
    newlyAddedDefaults := [] }

/-- C4 counterexample: renaming/re-pricing product `"A"` to
`("new", 99)` rewrites the existing invoice line's name and price in
place — the line does not keep its snapshot. -/
theorem C4_counterexample :
    (handleUpdateProduct "A" "new" 99 exC4St).invoiceItems =
      [{ productId := "A", name := "new", price := 99,
         quantity := 1, discount := 0, isNew := false }]
    ∧ exC4St.invoiceItems =
      [{ productId := "A", name := "old", price := 10,
         quantity := 1, discount := 0, isNew := false }]
    ∧ (handleUpdateProduct "A" "new" 99 exC4St).invoiceItems ≠
        exC4St.invoiceItems := by
  refine ⟨?_, ?_, ?_⟩
  · simp [handleUpdateProduct, exC4St, productLine, prodA]
  · simp [exC4St, productLine, prodA]
  · simp [handleUpdateProduct, exC4St, productLine, prodA]

/-- C4 amended: `handleUpdateProduct` re-syncs the matching line of the
open invoice to the new name and price (keeping its quantity, discount and
`isNew` flag), lines for other product ids keep their snapshot unchanged,
and when no line matches the updated id the whole invoice is unchanged. -/
theorem C4_update_product_resyncs (id nm : String) (pr : ℚ) (st : AppState) :
    (handleUpdateProduct id nm pr st).invoiceItems =
      st.invoiceItems.map (fun item =>
        if item.productId == id then { item with name := nm, price := pr }
        else item)
    ∧ (∀ item ∈ st.invoiceItems, item.productId ≠ id →
        item ∈ (handleUpdateProduct id nm pr st).invoiceItems)
    ∧ ((st.invoiceItems.all (fun item => !(item.productId == id))) = true →
        (handleUpdateProduct id nm pr st).invoiceItems = st.invoiceItems) := by
  refine ⟨rfl, ?_, ?_⟩
  · intro item hmem hne
    simp only [handleUpdateProduct]
    refine List.mem_map.mpr ⟨item, hmem, ?_⟩
    have hfalse : (item.productId == id) = false := by simpa using hne
    simp [hfalse]
  · intro hall
    have h1 : ∀ item ∈ st.invoiceItems,
        (if item.productId == id then { item with name := nm, price := pr }
         else item) = item := by
      intro item hmem
      have hb := List.all_eq_true.mp hall item hmem
      have hfalse : (item.productId == id) = false := by simpa using hb
      simp [hfalse]
    calc (handleUpdateProduct id nm pr st).invoiceItems
        = st.invoiceItems.map (fun item =>
            if item.productId == id then { item with name := nm, price := pr }
            else item) := rfl
      _ = st.invoiceItems.map (fun item => item) := List.map_congr_left h1
      _ = st.invoiceItems := List.map_id' _

/-- Witness for C4's amended theorem: updating a product id absent from
the invoice leaves the invoice unchanged. -/
theorem C4_witness :
    (handleUpdateProduct "Z" "n" 1 exC4St).invoiceItems =
      exC4St.invoiceItems :=
  (C4_update_product_resyncs "Z" "n" 1 exC4St).2.2
    (by simp [exC4St, productLine, prodA])

end MonthlyMedicine
